import Mathlib

/-!
Verification of the `tabletserver` serving controller
(`go/vt/tabletserver/tabletserver.go` of sqle/vitess).

The Go code is shallowly embedded: the mutable `TabletServer` struct becomes
a record passed and returned explicitly, machine integers become `Int`/`Nat`,
fallible calls return an `Option TabletError` alongside the post-state, and
external collaborators (MySQL connections, pools, throttler) are abstracted
as explicit outcome parameters.
-/

namespace Vitess

/-- Tablet roles from `topodatapb.TabletType`. `BATCH` is omitted because in
the proto it is a numeric alias of `RDONLY` and therefore not a distinct
value. -/
inductive TabletType
  | unknown
  | master
  | replica
  | rdonly
  | spare
  | backup
  | restore
  | drained
  deriving DecidableEq, Repr

/-- Go `%v` rendering of a tablet type (the proto enum name). -/
def tabletTypeName : TabletType → String
  | .unknown => "UNKNOWN"
  | .master => "MASTER"
  | .replica => "REPLICA"
  | .rdonly => "RDONLY"
  | .spare => "SPARE"
  | .backup => "BACKUP"
  | .restore => "RESTORE"
  | .drained => "DRAINED"

/-- Go `%v` rendering of a slice of tablet types. -/
def tabletTypeListName (l : List TabletType) : String :=
  "[" ++ String.intercalate " " (l.map tabletTypeName) ++ "]"

/-- Error kinds from `vtrpcpb.ErrorCode` used by the tabletserver. -/
inductive ErrorCode
  | unknownError
  | badInput
  | integrityError
  | resourceExhausted
  | queryNotServed
  | notInTx
  | internalError
  | transientError
  deriving DecidableEq, Repr

/-- `querypb.Target`: the (keyspace, shard, role) tuple. -/
structure Target where
  keyspace : String
  shard : String
  tabletType : TabletType
  deriving DecidableEq, Repr

/-- Modelled from the spec: the error envelope of package `tabletenv`
(`TabletError`), whose defining source file is not included in the extract;
per §6 of the spec every error carries an error-kind, an optional SQL error
code, an optional SQL state, and a human message. -/
structure TabletError where
  message : String
  sqlError : Int
  sqlState : String
  errorCode : ErrorCode
  deriving DecidableEq, Repr

/-- Modelled from the spec: `tabletenv.NewTabletError` builds an error from
an error-kind and a message; the optional SQL error code and SQL state are
absent (zero / empty). -/
def NewTabletError (code : ErrorCode) (msg : String) : TabletError :=
  { message := msg, sqlError := 0, sqlState := "", errorCode := code }

/-- The five serving states of the controller. -/
inductive ServingState
  | notConnected
  | notServing
  | serving
  | transitioning
  | shuttingDown
  deriving DecidableEq, Repr

/-- The `stateName` table of `tabletserver.go`. -/
def stateName : ServingState → String
  | .notConnected => "NOT_SERVING"
  | .notServing => "NOT_SERVING"
  | .serving => "SERVING"
  | .transitioning => "NOT_SERVING"
  | .shuttingDown => "SHUTTING_DOWN"

/-- The fields of the Go `TabletServer` struct that the serving controller
reads and writes: serving state, lameduck flag, target, also-allow list, and
the two wait-groups (modelled as counters of outstanding requests). -/
structure TabletServer where
  state : ServingState
  lameduck : Int
  target : Target
  alsoAllow : List TabletType
  requests : Nat
  txRequests : Nat
  deriving DecidableEq, Repr

/-- `TabletServer.GetState`: lameduck forces "NOT_SERVING", otherwise the
state name is reported. -/
def GetState (tsv : TabletServer) : String :=
  if tsv.lameduck ≠ 0 then "NOT_SERVING" else stateName tsv.state

/-- `TabletServer.IsServing`: true iff `GetState` returns "SERVING". -/
def IsServing (tsv : TabletServer) : Bool :=
  GetState tsv == "SERVING"

/-- `TabletServer.EnterLameduck`. -/
def EnterLameduck (tsv : TabletServer) : TabletServer :=
  { tsv with lameduck := 1 }

/-- `TabletServer.ExitLameduck`. -/
def ExitLameduck (tsv : TabletServer) : TabletServer :=
  { tsv with lameduck := 0 }

/-- The `ok:` tail of `startRequest`: register the request on the wait-group,
and on the transaction wait-group as well when `isTx`. -/
def registerRequest (tsv : TabletServer) (isTx : Bool) : Option TabletError × TabletServer :=
  (none, { tsv with
            requests := tsv.requests + 1,
            txRequests := if isTx then tsv.txRequests + 1 else tsv.txRequests })

/-- The `verifyTarget:` block of `startRequest`. A `none` target stands for a
nil pointer; `ctxIsLocal` abstracts `isLocalContext(ctx)` (the process-local
invocation marker of §5/§9 of the spec, whose defining file is not in the
extract). -/
def verifyTargetAndRegister (tsv : TabletServer) (ctxIsLocal : Bool) (target : Option Target)
    (isTx : Bool) : Option TabletError × TabletServer :=
  match target with
  | some t =>
    if t.keyspace ≠ tsv.target.keyspace then
      (some (NewTabletError .queryNotServed ("Invalid keyspace " ++ t.keyspace)), tsv)
    else if t.shard ≠ tsv.target.shard then
      (some (NewTabletError .queryNotServed ("Invalid shard " ++ t.shard)), tsv)
    else if isTx = true ∧ tsv.target.tabletType ≠ TabletType.master then
      (some (NewTabletError .queryNotServed
        ("transactional statement disallowed on non-master tablet: " ++
          tabletTypeName tsv.target.tabletType)), tsv)
    else if t.tabletType ≠ tsv.target.tabletType then
      if t.tabletType ∈ tsv.alsoAllow then
        registerRequest tsv isTx
      else
        (some (NewTabletError .queryNotServed
          ("Invalid tablet type: " ++ tabletTypeName t.tabletType ++ ", want: " ++
            tabletTypeName tsv.target.tabletType ++ " or " ++
            tabletTypeListName tsv.alsoAllow)), tsv)
    else
      registerRequest tsv isTx
  | none =>
    if ctxIsLocal = false then
      (some (NewTabletError .queryNotServed "No target"), tsv)
    else
      registerRequest tsv isTx

/-- `TabletServer.startRequest`. The two Go `goto verifyTarget` tests are the
two disjuncts of the guard; a failing guard returns the wrong-state error and
leaves the server untouched. -/
def startRequest (tsv : TabletServer) (ctxIsLocal : Bool) (target : Option Target)
    (isTx allowOnShutdown : Bool) : Option TabletError × TabletServer :=
  if tsv.state = ServingState.serving ∨
      (allowOnShutdown = true ∧ tsv.state = ServingState.shuttingDown) then
    verifyTargetAndRegister tsv ctxIsLocal target isTx
  else
    (some (NewTabletError .queryNotServed
      ("operation not allowed in state " ++ stateName tsv.state)), tsv)

/-- `TabletServer.endRequest`. -/
def endRequest (tsv : TabletServer) (isTx : Bool) : TabletServer :=
  { tsv with
    requests := tsv.requests - 1,
    txRequests := if isTx then tsv.txRequests - 1 else tsv.txRequests }

/-- The state guard of `startRequest`, in the words of the claim. -/
abbrev stateAllows (tsv : TabletServer) (allowOnShutdown : Bool) : Prop :=
  tsv.state = ServingState.serving ∨
    (allowOnShutdown = true ∧ tsv.state = ServingState.shuttingDown)

/-- The target checks of `startRequest` for a non-nil target, in the words of
the claim. -/
abbrev targetAllows (tsv : TabletServer) (isTx : Bool) (t : Target) : Prop :=
  t.keyspace = tsv.target.keyspace ∧
  t.shard = tsv.target.shard ∧
  (isTx = true → tsv.target.tabletType = TabletType.master) ∧
  (t.tabletType = tsv.target.tabletType ∨ t.tabletType ∈ tsv.alsoAllow)

/-- The full admission condition, covering the nil-target case. -/
abbrev admissionAllowed (tsv : TabletServer) (ctxIsLocal : Bool) (target : Option Target)
    (isTx allowOnShutdown : Bool) : Prop :=
  stateAllows tsv allowOnShutdown ∧
    match target with
    | some t => targetAllows tsv isTx t
    | none => ctxIsLocal = true

lemma verifyTargetAndRegister_none_iff (tsv : TabletServer) (ctxIsLocal : Bool)
    (target : Option Target) (isTx : Bool) :
    (verifyTargetAndRegister tsv ctxIsLocal target isTx).1 = none ↔
      (match target with
       | some t => targetAllows tsv isTx t
       | none => ctxIsLocal = true) := by
  cases target with
  | none =>
    simp only [verifyTargetAndRegister, registerRequest]
    split
    · simp_all
    · simp_all
  | some t =>
    simp only [verifyTargetAndRegister, registerRequest, targetAllows]
    split_ifs with h1 h2 h3 h4 h5 <;> simp_all

lemma verifyTargetAndRegister_cases (tsv : TabletServer) (ctxIsLocal : Bool)
    (target : Option Target) (isTx : Bool) :
    verifyTargetAndRegister tsv ctxIsLocal target isTx = registerRequest tsv isTx ∨
      ∃ e, verifyTargetAndRegister tsv ctxIsLocal target isTx = (some e, tsv) ∧
        e.errorCode = ErrorCode.queryNotServed := by
  cases target with
  | none =>
    simp only [verifyTargetAndRegister]
    split
    · exact Or.inr ⟨_, rfl, rfl⟩
    · exact Or.inl rfl
  | some t =>
    simp only [verifyTargetAndRegister]
    split_ifs <;>
      first
        | exact Or.inl rfl
        | exact Or.inr ⟨_, rfl, rfl⟩

lemma verifyTargetAndRegister_error (tsv : TabletServer) (ctxIsLocal : Bool)
    (target : Option Target) (isTx : Bool) (e : TabletError)
    (h : (verifyTargetAndRegister tsv ctxIsLocal target isTx).1 = some e) :
    e.errorCode = ErrorCode.queryNotServed ∧
      (verifyTargetAndRegister tsv ctxIsLocal target isTx).2 = tsv := by
  rcases verifyTargetAndRegister_cases tsv ctxIsLocal target isTx with hc | ⟨e2, hc, hcode⟩
  · rw [hc] at h
    simp [registerRequest] at h
  · rw [hc] at h ⊢
    simp only [Option.some.injEq] at h
    exact ⟨h ▸ hcode, rfl⟩

lemma startRequest_guard_true (tsv : TabletServer) (ctxIsLocal : Bool) (target : Option Target)
    (isTx allowOnShutdown : Bool)
    (h : tsv.state = ServingState.serving ∨
      (allowOnShutdown = true ∧ tsv.state = ServingState.shuttingDown)) :
    startRequest tsv ctxIsLocal target isTx allowOnShutdown =
      verifyTargetAndRegister tsv ctxIsLocal target isTx := by
  simp only [startRequest, if_pos h]

lemma startRequest_guard_false (tsv : TabletServer) (ctxIsLocal : Bool) (target : Option Target)
    (isTx allowOnShutdown : Bool)
    (h : ¬(tsv.state = ServingState.serving ∨
      (allowOnShutdown = true ∧ tsv.state = ServingState.shuttingDown))) :
    startRequest tsv ctxIsLocal target isTx allowOnShutdown =
      (some (NewTabletError .queryNotServed
        ("operation not allowed in state " ++ stateName tsv.state)), tsv) := by
  simp only [startRequest, if_neg h]

lemma startRequest_none_iff (tsv : TabletServer) (ctxIsLocal : Bool) (target : Option Target)
    (isTx allowOnShutdown : Bool) :
    (startRequest tsv ctxIsLocal target isTx allowOnShutdown).1 = none ↔
      admissionAllowed tsv ctxIsLocal target isTx allowOnShutdown := by
  by_cases h : tsv.state = ServingState.serving ∨
      (allowOnShutdown = true ∧ tsv.state = ServingState.shuttingDown)
  · rw [startRequest_guard_true tsv ctxIsLocal target isTx allowOnShutdown h,
      verifyTargetAndRegister_none_iff]
    unfold admissionAllowed
    exact ⟨fun ht => ⟨h, ht⟩, fun hc => hc.2⟩
  · rw [startRequest_guard_false tsv ctxIsLocal target isTx allowOnShutdown h]
    unfold admissionAllowed
    simp only [reduceCtorEq, false_iff, not_and]
    intro hs
    exact absurd hs h

lemma startRequest_error (tsv : TabletServer) (ctxIsLocal : Bool) (target : Option Target)
    (isTx allowOnShutdown : Bool) (e : TabletError)
    (h : (startRequest tsv ctxIsLocal target isTx allowOnShutdown).1 = some e) :
    e.errorCode = ErrorCode.queryNotServed ∧
      (startRequest tsv ctxIsLocal target isTx allowOnShutdown).2 = tsv := by
  by_cases hg : tsv.state = ServingState.serving ∨
      (allowOnShutdown = true ∧ tsv.state = ServingState.shuttingDown)
  · rw [startRequest_guard_true tsv ctxIsLocal target isTx allowOnShutdown hg] at h ⊢
    exact verifyTargetAndRegister_error tsv ctxIsLocal target isTx e h
  · rw [startRequest_guard_false tsv ctxIsLocal target isTx allowOnShutdown hg] at h ⊢
    simp only [Option.some.injEq] at h
    exact ⟨h ▸ rfl, rfl⟩

/-- C1 (as stated): the admission criterion of the claim, which for a nil
target asserts admission whenever the state guard passes. -/
abbrev claimC1Stated : Prop :=
  ∀ (tsv : TabletServer) (ctxIsLocal : Bool) (target : Option Target)
    (isTx allowOnShutdown : Bool),
    ((startRequest tsv ctxIsLocal target isTx allowOnShutdown).1 = none ↔
      (stateAllows tsv allowOnShutdown ∧
        match target with
        | some t => targetAllows tsv isTx t
        | none => True)) ∧
    (∀ e, (startRequest tsv ctxIsLocal target isTx allowOnShutdown).1 = some e →
      e.errorCode = ErrorCode.queryNotServed ∧
        (startRequest tsv ctxIsLocal target isTx allowOnShutdown).2 = tsv)

/-- C1 counterexample: the claim as stated is false. In state SERVING, a call
with a nil target from a non-local invocation is rejected with "No target"
even though the admission criterion of the claim (state guard alone, target
conditions vacuous) says it must be admitted. -/
theorem startRequest_claim_counterexample : ¬ claimC1Stated := by
  intro h
  have h2 := (h ⟨ServingState.serving, 0, ⟨"ks", "0", TabletType.master⟩, [], 0, 0⟩
      false none false false).1.2 ⟨Or.inl rfl, trivial⟩
  exact absurd h2 (by decide)

/-- C1 (amended): a request is admitted iff the state guard passes (SERVING,
or allowOnShutdown and SHUTTING_DOWN) and, for a non-nil target, the
keyspace and shard match, transactional requests find the controller in the
MASTER role, and the target role equals the current role or is in the
also-allow list — and, for a nil target, the invocation is process-local;
every failing case returns a QUERY_NOT_SERVED error and leaves the request
and transaction counters (and all other fields) unchanged. -/
theorem startRequest_admission_amended (tsv : TabletServer) (ctxIsLocal : Bool)
    (target : Option Target) (isTx allowOnShutdown : Bool) :
    ((startRequest tsv ctxIsLocal target isTx allowOnShutdown).1 = none ↔
      admissionAllowed tsv ctxIsLocal target isTx allowOnShutdown) ∧
    (∀ e, (startRequest tsv ctxIsLocal target isTx allowOnShutdown).1 = some e →
      e.errorCode = ErrorCode.queryNotServed ∧
        (startRequest tsv ctxIsLocal target isTx allowOnShutdown).2 = tsv) :=
  ⟨startRequest_none_iff tsv ctxIsLocal target isTx allowOnShutdown,
   startRequest_error tsv ctxIsLocal target isTx allowOnShutdown⟩

/-- C1 witness: the amended theorem applied at a concrete denied request
(state NOT_SERVING) and at a concrete admitted request (state SERVING). -/
theorem startRequest_admission_amended_witness :
    ((startRequest ⟨ServingState.notServing, 0, ⟨"ks", "0", TabletType.master⟩, [], 0, 0⟩
        false none false false).2 =
      ⟨ServingState.notServing, 0, ⟨"ks", "0", TabletType.master⟩, [], 0, 0⟩) ∧
    (startRequest ⟨ServingState.serving, 0, ⟨"ks", "0", TabletType.master⟩, [], 0, 0⟩
        false (some ⟨"ks", "0", TabletType.master⟩) true false).1 = none :=
  ⟨((startRequest_admission_amended
      ⟨ServingState.notServing, 0, ⟨"ks", "0", TabletType.master⟩, [], 0, 0⟩
      false none false false).2
      (NewTabletError .queryNotServed "operation not allowed in state NOT_SERVING")
      (by decide)).2,
   (startRequest_admission_amended
      ⟨ServingState.serving, 0, ⟨"ks", "0", TabletType.master⟩, [], 0, 0⟩
      false (some ⟨"ks", "0", TabletType.master⟩) true false).1.2
      ⟨Or.inl rfl, rfl, rfl, fun _ => rfl, Or.inl rfl⟩⟩

lemma startRequest_lameduck_irrelevant (tsv : TabletServer) (ld : Int) (ctxIsLocal : Bool)
    (target : Option Target) (isTx allowOnShutdown : Bool) :
    (startRequest { tsv with lameduck := ld } ctxIsLocal target isTx allowOnShutdown).1 =
        (startRequest tsv ctxIsLocal target isTx allowOnShutdown).1 ∧
      (startRequest { tsv with lameduck := ld } ctxIsLocal target isTx allowOnShutdown).2 =
        { (startRequest tsv ctxIsLocal target isTx allowOnShutdown).2 with lameduck := ld } := by
  obtain ⟨st, ld0, tg, aa, rq, txr⟩ := tsv
  by_cases hg : st = ServingState.serving ∨
      (allowOnShutdown = true ∧ st = ServingState.shuttingDown)
  · rw [startRequest_guard_true _ ctxIsLocal target isTx allowOnShutdown hg,
      startRequest_guard_true _ ctxIsLocal target isTx allowOnShutdown hg]
    cases target with
    | none =>
      simp only [verifyTargetAndRegister, registerRequest]
      split <;> simp
    | some t =>
      simp only [verifyTargetAndRegister, registerRequest]
      split_ifs <;> simp
  · rw [startRequest_guard_false _ ctxIsLocal target isTx allowOnShutdown hg,
      startRequest_guard_false _ ctxIsLocal target isTx allowOnShutdown hg]
    exact ⟨rfl, rfl⟩

/-- C9: the lameduck flag changes only the health view, never admission.
With lameduck set, `GetState` reports "NOT_SERVING" (so `IsServing` is
false) whatever the internal state; and `startRequest` behaves identically
for any two values of the flag: same outcome, and the same post-state up to
the flag itself. -/
theorem lameduck_health_only :
    (∀ tsv : TabletServer, tsv.lameduck ≠ 0 →
      GetState tsv = "NOT_SERVING" ∧ IsServing tsv = false) ∧
    (∀ (tsv : TabletServer) (ld : Int) (ctxIsLocal : Bool) (target : Option Target)
      (isTx allowOnShutdown : Bool),
      (startRequest { tsv with lameduck := ld } ctxIsLocal target isTx allowOnShutdown).1 =
          (startRequest tsv ctxIsLocal target isTx allowOnShutdown).1 ∧
        (startRequest { tsv with lameduck := ld } ctxIsLocal target isTx allowOnShutdown).2 =
          { (startRequest tsv ctxIsLocal target isTx allowOnShutdown).2 with lameduck := ld }) := by
  constructor
  · intro tsv h
    have hg : GetState tsv = "NOT_SERVING" := by
      simp only [GetState, if_pos h]
    exact ⟨hg, by simp [IsServing, hg]⟩
  · exact fun tsv ld c t x a => startRequest_lameduck_irrelevant tsv ld c t x a

/-- C9 witness: the theorem applied at a concrete lameduck server in state
SERVING, and at a concrete admission call under both flag values. -/
theorem lameduck_health_only_witness :
    (GetState ⟨ServingState.serving, 1, ⟨"ks", "0", TabletType.master⟩, [], 0, 0⟩ =
        "NOT_SERVING" ∧
      IsServing ⟨ServingState.serving, 1, ⟨"ks", "0", TabletType.master⟩, [], 0, 0⟩ = false) ∧
    (startRequest ⟨ServingState.serving, 1, ⟨"ks", "0", TabletType.master⟩, [], 0, 0⟩
        false (some ⟨"ks", "0", TabletType.master⟩) false false).1 =
      (startRequest ⟨ServingState.serving, 0, ⟨"ks", "0", TabletType.master⟩, [], 0, 0⟩
        false (some ⟨"ks", "0", TabletType.master⟩) false false).1 :=
  ⟨lameduck_health_only.1 ⟨ServingState.serving, 1, ⟨"ks", "0", TabletType.master⟩, [], 0, 0⟩
      (by decide),
   (lameduck_health_only.2 ⟨ServingState.serving, 0, ⟨"ks", "0", TabletType.master⟩, [], 0, 0⟩
      1 false (some ⟨"ks", "0", TabletType.master⟩) false false).1⟩

/-- The four actions `decideAction` can choose. -/
inductive Action
  | actionNone
  | actionFullStart
  | actionServeNewType
  | actionGracefulStop
  deriving DecidableEq, Repr

/-- Outcomes of the external collaborators driven by `fullStart` and
`serveNewType` (database connection, query/tx engine opening, transaction
throttler): `none` means the step succeeds. -/
structure ServeEnv where
  fullStartPrefixErr : Option TabletError
  serveNewTypeErr : Option TabletError

/-- `TabletServer.serveNewType`: open or close role-specific sub-services
(abstracted into `env`), then transition to SERVING; on a collaborator error
the state is left for the caller to clean up. -/
def serveNewType (env : ServeEnv) (tsv : TabletServer) : Option TabletError × TabletServer :=
  match env.serveNewTypeErr with
  | some e => (some e, tsv)
  | none => (none, { tsv with state := ServingState.serving })

/-- `TabletServer.fullStart`: connect and open the engines (abstracted into
`env`), then `serveNewType`. -/
def fullStart (env : ServeEnv) (tsv : TabletServer) : Option TabletError × TabletServer :=
  match env.fullStartPrefixErr with
  | some e => (some e, tsv)
  | none => serveNewType env tsv

/-- `TabletServer.gracefulStop`: drain, then transition to NOT_SERVING. -/
def gracefulStop (tsv : TabletServer) : TabletServer :=
  { tsv with state := ServingState.notServing }

/-- `TabletServer.closeAll`: forced shutdown after a failed start; ends in
NOT_CONNECTED. -/
def closeAll (tsv : TabletServer) : TabletServer :=
  { tsv with state := ServingState.notConnected }

/-- `TabletServer.decideAction`: records the also-allow list, takes the
no-transition shortcut when already serving the requested type, otherwise
overwrites the target role and decides by state. Returns the action, the
error (if any) and the post-state. -/
def decideAction (tsv : TabletServer) (tabletType : TabletType) (serving : Bool)
    (alsoAllow : List TabletType) : Action × Option TabletError × TabletServer :=
  let tsv1 := { tsv with alsoAllow := alsoAllow }
  if tsv1.target.tabletType = tabletType ∧ serving = true ∧
      tsv1.state = ServingState.serving then
    (Action.actionNone, none, tsv1)
  else
    let tsv2 := { tsv1 with target := { tsv1.target with tabletType := tabletType } }
    match tsv2.state with
    | ServingState.notConnected =>
      if serving then (Action.actionFullStart, none, { tsv2 with state := ServingState.transitioning })
      else (Action.actionNone, none, tsv2)
    | ServingState.notServing =>
      if serving then (Action.actionServeNewType, none, { tsv2 with state := ServingState.transitioning })
      else (Action.actionNone, none, tsv2)
    | ServingState.serving =>
      if serving then (Action.actionServeNewType, none, { tsv2 with state := ServingState.transitioning })
      else (Action.actionGracefulStop, none, { tsv2 with state := ServingState.shuttingDown })
    | ServingState.transitioning =>
      (Action.actionNone, some (NewTabletError .internalError
        ("cannot SetServingType, current state: " ++ stateName tsv2.state)), tsv2)
    | ServingState.shuttingDown =>
      (Action.actionNone, some (NewTabletError .internalError
        ("cannot SetServingType, current state: " ++ stateName tsv2.state)), tsv2)

/-- `TabletServer.SetServingType`: decide the action, execute it, and — as
the Go `defer tsv.ExitLameduck()` does on every return path — clear the
lameduck flag last. Returns (stateChanged, error) and the post-state. -/
def SetServingType (env : ServeEnv) (tsv : TabletServer) (tabletType : TabletType)
    (serving : Bool) (alsoAllow : List TabletType) :
    (Bool × Option TabletError) × TabletServer :=
  let r := decideAction tsv tabletType serving alsoAllow
  let res : (Bool × Option TabletError) × TabletServer :=
    match r.2.1 with
    | some e => ((false, some e), r.2.2)
    | none =>
      match r.1 with
      | Action.actionNone => ((false, none), r.2.2)
      | Action.actionFullStart =>
        match fullStart env r.2.2 with
        | (some e, tsv2) => ((true, some e), closeAll tsv2)
        | (none, tsv2) => ((true, none), tsv2)
      | Action.actionServeNewType =>
        match serveNewType env r.2.2 with
        | (some e, tsv2) => ((true, some e), closeAll tsv2)
        | (none, tsv2) => ((true, none), tsv2)
      | Action.actionGracefulStop => ((true, none), gracefulStop r.2.2)
  (res.1, ExitLameduck res.2)

/-- C4: a `SetServingType` call made while the controller is TRANSITIONING
or SHUTTING_DOWN returns an internal error, reports stateChanged = false,
and leaves the serving state unchanged. -/
theorem setServingType_rejected_in_transition (env : ServeEnv) (tsv : TabletServer)
    (tabletType : TabletType) (serving : Bool) (alsoAllow : List TabletType)
    (h : tsv.state = ServingState.transitioning ∨ tsv.state = ServingState.shuttingDown) :
    (SetServingType env tsv tabletType serving alsoAllow).1.1 = false ∧
    (SetServingType env tsv tabletType serving alsoAllow).1.2 =
      some (NewTabletError .internalError
        ("cannot SetServingType, current state: " ++ stateName tsv.state)) ∧
    (SetServingType env tsv tabletType serving alsoAllow).2.state = tsv.state := by
  obtain h | h := h <;> simp [SetServingType, decideAction, ExitLameduck, h]

/-- C4 witness: the theorem applied to a concrete server in TRANSITIONING. -/
theorem setServingType_rejected_in_transition_witness :
    (SetServingType ⟨none, none⟩
        ⟨ServingState.transitioning, 0, ⟨"ks", "0", TabletType.master⟩, [], 0, 0⟩
        TabletType.replica true []).1.1 = false ∧
    (SetServingType ⟨none, none⟩
        ⟨ServingState.transitioning, 0, ⟨"ks", "0", TabletType.master⟩, [], 0, 0⟩
        TabletType.replica true []).1.2 =
      some (NewTabletError .internalError
        ("cannot SetServingType, current state: " ++
          stateName ServingState.transitioning)) ∧
    (SetServingType ⟨none, none⟩
        ⟨ServingState.transitioning, 0, ⟨"ks", "0", TabletType.master⟩, [], 0, 0⟩
        TabletType.replica true []).2.state = ServingState.transitioning :=
  setServingType_rejected_in_transition ⟨none, none⟩
    ⟨ServingState.transitioning, 0, ⟨"ks", "0", TabletType.master⟩, [], 0, 0⟩
    TabletType.replica true [] (Or.inl rfl)

/-- C5: `SetServingType(tabletType, serving = true, alsoAllow)` while SERVING
with an unchanged target role decides action none: no error, stateChanged =
false, and the serving state remains SERVING. -/
theorem setServingType_unchanged_none (env : ServeEnv) (tsv : TabletServer)
    (tabletType : TabletType) (alsoAllow : List TabletType)
    (h1 : tsv.state = ServingState.serving) (h2 : tsv.target.tabletType = tabletType) :
    (decideAction tsv tabletType true alsoAllow).1 = Action.actionNone ∧
    (SetServingType env tsv tabletType true alsoAllow).1 = (false, none) ∧
    (SetServingType env tsv tabletType true alsoAllow).2.state = ServingState.serving := by
  refine ⟨?_, ?_, ?_⟩ <;> simp [SetServingType, decideAction, ExitLameduck, h1, h2]

/-- C5 witness: the theorem applied to a concrete serving MASTER asked to
keep serving as MASTER. -/
theorem setServingType_unchanged_none_witness :
    (decideAction ⟨ServingState.serving, 0, ⟨"ks", "0", TabletType.master⟩, [], 0, 0⟩
        TabletType.master true [TabletType.replica]).1 = Action.actionNone ∧
    (SetServingType ⟨none, none⟩
        ⟨ServingState.serving, 0, ⟨"ks", "0", TabletType.master⟩, [], 0, 0⟩
        TabletType.master true [TabletType.replica]).1 = (false, none) ∧
    (SetServingType ⟨none, none⟩
        ⟨ServingState.serving, 0, ⟨"ks", "0", TabletType.master⟩, [], 0, 0⟩
        TabletType.master true [TabletType.replica]).2.state = ServingState.serving :=
  setServingType_unchanged_none ⟨none, none⟩
    ⟨ServingState.serving, 0, ⟨"ks", "0", TabletType.master⟩, [], 0, 0⟩
    TabletType.master [TabletType.replica] rfl rfl

/-- C10: every `SetServingType` call clears the lameduck flag before
returning — the Go `defer tsv.ExitLameduck()` runs on the action-none path,
on the TRANSITIONING/SHUTTING_DOWN error path, and on failing start-up
actions alike — so the post-state always has lameduck = 0. -/
theorem setServingType_clears_lameduck (env : ServeEnv) (tsv : TabletServer)
    (tabletType : TabletType) (serving : Bool) (alsoAllow : List TabletType) :
    (SetServingType env tsv tabletType serving alsoAllow).2.lameduck = 0 := rfl

/-- The admission check made by `TabletServer.Begin` through `execRequest`:
`isTx = true`, `allowOnShutdown = false`. -/
def beginStartRequest (tsv : TabletServer) (ctxIsLocal : Bool) (target : Option Target) :
    Option TabletError × TabletServer :=
  startRequest tsv ctxIsLocal target true false

/-- The admission check made by `TabletServer.Commit` through `execRequest`:
`isTx = true`, `allowOnShutdown = true`. -/
def commitStartRequest (tsv : TabletServer) (ctxIsLocal : Bool) (target : Option Target) :
    Option TabletError × TabletServer :=
  startRequest tsv ctxIsLocal target true true

/-- The admission check made by `TabletServer.Rollback` through
`execRequest`: `isTx = true`, `allowOnShutdown = true`. -/
def rollbackStartRequest (tsv : TabletServer) (ctxIsLocal : Bool) (target : Option Target) :
    Option TabletError × TabletServer :=
  startRequest tsv ctxIsLocal target true true

/-- C2: while the controller is SHUTTING_DOWN, `Begin` is denied with
QUERY_NOT_SERVED (it passes allowOnShutdown = false), whereas `Commit` and
`Rollback` of an existing transaction on a valid target are still admitted
(they pass allowOnShutdown = true). -/
theorem shutdown_denies_begin_admits_commit (tsv : TabletServer) (ctxIsLocal : Bool)
    (t : Target)
    (hs : tsv.state = ServingState.shuttingDown)
    (hk : t.keyspace = tsv.target.keyspace) (hsh : t.shard = tsv.target.shard)
    (hm : tsv.target.tabletType = TabletType.master)
    (ht : t.tabletType = tsv.target.tabletType ∨ t.tabletType ∈ tsv.alsoAllow) :
    (beginStartRequest tsv ctxIsLocal (some t)).1 =
      some (NewTabletError .queryNotServed
        "operation not allowed in state SHUTTING_DOWN") ∧
    (commitStartRequest tsv ctxIsLocal (some t)).1 = none ∧
    (rollbackStartRequest tsv ctxIsLocal (some t)).1 = none := by
  have hb : ¬(tsv.state = ServingState.serving ∨
      (false = true ∧ tsv.state = ServingState.shuttingDown)) := by simp [hs]
  have hcg : tsv.state = ServingState.serving ∨
      (true = true ∧ tsv.state = ServingState.shuttingDown) := Or.inr ⟨rfl, hs⟩
  refine ⟨?_, ?_, ?_⟩
  · unfold beginStartRequest
    rw [startRequest_guard_false tsv ctxIsLocal (some t) true false hb, hs]
    rfl
  · unfold commitStartRequest
    rw [startRequest_guard_true tsv ctxIsLocal (some t) true true hcg,
      verifyTargetAndRegister_none_iff]
    exact ⟨hk, hsh, fun _ => hm, ht⟩
  · unfold rollbackStartRequest
    rw [startRequest_guard_true tsv ctxIsLocal (some t) true true hcg,
      verifyTargetAndRegister_none_iff]
    exact ⟨hk, hsh, fun _ => hm, ht⟩

/-- C2 witness: the theorem applied to a concrete shutting-down MASTER. -/
theorem shutdown_denies_begin_admits_commit_witness :
    (beginStartRequest ⟨ServingState.shuttingDown, 0, ⟨"ks", "0", TabletType.master⟩, [], 0, 0⟩
        false (some ⟨"ks", "0", TabletType.master⟩)).1 =
      some (NewTabletError .queryNotServed
        "operation not allowed in state SHUTTING_DOWN") ∧
    (commitStartRequest ⟨ServingState.shuttingDown, 0, ⟨"ks", "0", TabletType.master⟩, [], 0, 0⟩
        false (some ⟨"ks", "0", TabletType.master⟩)).1 = none ∧
    (rollbackStartRequest ⟨ServingState.shuttingDown, 0, ⟨"ks", "0", TabletType.master⟩, [], 0, 0⟩
        false (some ⟨"ks", "0", TabletType.master⟩)).1 = none :=
  shutdown_denies_begin_admits_commit
    ⟨ServingState.shuttingDown, 0, ⟨"ks", "0", TabletType.master⟩, [], 0, 0⟩
    false ⟨"ks", "0", TabletType.master⟩ rfl rfl rfl rfl (Or.inl rfl)

/-- The Google-internal failover sentinel preserved verbatim by
`handleError`. -/
def failoverInProgressMessage : String :=
  "failover in progress (errno 1227) (sqlstate 42000)"

/-- The stripped message `handleError` substitutes in terse-errors mode. -/
def terseMessage (terr : TabletError) (sql : String) : String :=
  "(errno " ++ toString terr.sqlError ++ ") (sqlstate " ++ terr.sqlState ++
    ") during query: " ++ sql

/-- `TabletServer.handleError`, restricted to the returned error (`myError`
in the Go code; logging and stats recording have no caller-visible effect).
The input error is taken to be a `TabletError` already (the `ok` branch of
the Go type assertion); bind-variable values are modelled as strings. -/
def handleError (terseErrors : Bool) (sql : String)
    (bindVariables : List (String × String)) (terr : TabletError) : TabletError :=
  if terseErrors = true ∧ terr.sqlError ≠ 0 ∧ bindVariables.length ≠ 0 then
    if terr.sqlError = 1227 ∧ terr.message = failoverInProgressMessage then
      terr
    else
      { message := terseMessage terr sql, sqlError := terr.sqlError,
        sqlState := terr.sqlState, errorCode := terr.errorCode }
  else
    terr

lemma handleError_errorCode (terseErrors : Bool) (sql : String)
    (bindVariables : List (String × String)) (terr : TabletError) :
    (handleError terseErrors sql bindVariables terr).errorCode = terr.errorCode := by
  unfold handleError
  split_ifs <;> rfl

lemma handleError_nil_bindVariables (terseErrors : Bool) (sql : String) (terr : TabletError) :
    handleError terseErrors sql [] terr = terr := by
  simp [handleError]

/-- C3 (as stated): with terse errors on and a non-empty bind-variable map,
the returned message contains no byte sequence of any bind-variable value,
except the failover sentinel which is returned verbatim. -/
abbrev claimC3Stated : Prop :=
  ∀ (sql : String) (bindVariables : List (String × String)) (terr : TabletError),
    bindVariables ≠ [] →
    (¬(terr.sqlError = 1227 ∧ terr.message = failoverInProgressMessage) →
      ∀ p ∈ bindVariables,
        ¬ (p.2.data <:+: (handleError true sql bindVariables terr).message.data)) ∧
    ((terr.sqlError = 1227 ∧ terr.message = failoverInProgressMessage) →
      handleError true sql bindVariables terr = terr)

/-- C3 counterexample: the claim as stated is false. `handleError` only
strips the message when the error carries a non-zero MySQL errno; an error
with `sqlError = 0` whose message is exactly a bind-variable value is
returned verbatim in terse mode, so the returned message contains that
value. -/
theorem handleError_claim_counterexample : ¬ claimC3Stated := by
  intro h
  have h2 := (h "select 1" [("a", "secret")]
      ⟨"secret", 0, "HY000", ErrorCode.unknownError⟩ (by decide)).1
      (by decide) ("a", "secret") (by simp)
  apply h2
  have hval : handleError true "select 1" [("a", "secret")]
      ⟨"secret", 0, "HY000", ErrorCode.unknownError⟩ =
      ⟨"secret", 0, "HY000", ErrorCode.unknownError⟩ := by decide
  rw [hval]

/-- C3 (amended): the error `handleError` returns never depends on the
bind-variable values — any two non-empty maps yield identical errors — and
when the error carries a non-zero MySQL errno (the only case the code
strips) the returned message is rebuilt from only the errno, the SQL state
and the SQL text, keeping the error kind; the failover sentinel (errno 1227
with the exact failover message) is returned verbatim. -/
theorem handleError_terse_amended :
    (∀ (terseErrors : Bool) (sql : String) (b1 b2 : List (String × String))
      (terr : TabletError), b1 ≠ [] → b2 ≠ [] →
      handleError terseErrors sql b1 terr = handleError terseErrors sql b2 terr) ∧
    (∀ (sql : String) (bindVariables : List (String × String)) (terr : TabletError),
      bindVariables ≠ [] → terr.sqlError ≠ 0 →
      ¬(terr.sqlError = 1227 ∧ terr.message = failoverInProgressMessage) →
      (handleError true sql bindVariables terr).message = terseMessage terr sql ∧
      (handleError true sql bindVariables terr).errorCode = terr.errorCode) ∧
    (∀ (sql : String) (bindVariables : List (String × String)) (terr : TabletError),
      terr.sqlError = 1227 → terr.message = failoverInProgressMessage →
      handleError true sql bindVariables terr = terr) := by
  refine ⟨?_, ?_, ?_⟩
  · intro terseErrors sql b1 b2 terr h1 h2
    have l1 : b1.length ≠ 0 := by simpa [List.length_eq_zero] using h1
    have l2 : b2.length ≠ 0 := by simpa [List.length_eq_zero] using h2
    by_cases hc : terseErrors = true ∧ terr.sqlError ≠ 0
    · have e1 : handleError terseErrors sql b1 terr =
          if terr.sqlError = 1227 ∧ terr.message = failoverInProgressMessage then terr
          else { message := terseMessage terr sql, sqlError := terr.sqlError,
                 sqlState := terr.sqlState, errorCode := terr.errorCode } := by
        unfold handleError
        rw [if_pos ⟨hc.1, hc.2, l1⟩]
      have e2 : handleError terseErrors sql b2 terr =
          if terr.sqlError = 1227 ∧ terr.message = failoverInProgressMessage then terr
          else { message := terseMessage terr sql, sqlError := terr.sqlError,
                 sqlState := terr.sqlState, errorCode := terr.errorCode } := by
        unfold handleError
        rw [if_pos ⟨hc.1, hc.2, l2⟩]
      rw [e1, e2]
    · have n1 : ¬(terseErrors = true ∧ terr.sqlError ≠ 0 ∧ b1.length ≠ 0) := by tauto
      have n2 : ¬(terseErrors = true ∧ terr.sqlError ≠ 0 ∧ b2.length ≠ 0) := by tauto
      unfold handleError
      rw [if_neg n1, if_neg n2]
  · intro sql bindVariables terr hbv hsql hfo
    have l1 : bindVariables.length ≠ 0 := by simpa [List.length_eq_zero] using hbv
    unfold handleError
    rw [if_pos ⟨rfl, hsql, l1⟩, if_neg hfo]
    exact ⟨rfl, rfl⟩
  · intro sql bindVariables terr h1 h2
    by_cases hc : (true : Bool) = true ∧ terr.sqlError ≠ 0 ∧ bindVariables.length ≠ 0
    · unfold handleError
      rw [if_pos hc, if_pos ⟨h1, h2⟩]
    · unfold handleError
      rw [if_neg hc]

/-- C3 witness: the amended theorem applied at concrete inputs — two
different bind-variable maps receive the same stripped error. -/
theorem handleError_terse_amended_witness :
    handleError true "select 1" [("a", "x")] ⟨"boom", 1062, "23000", ErrorCode.integrityError⟩ =
      handleError true "select 1" [("b", "y"), ("c", "z")]
        ⟨"boom", 1062, "23000", ErrorCode.integrityError⟩ ∧
    (handleError true "select 1" [("a", "x")]
        ⟨"boom", 1062, "23000", ErrorCode.integrityError⟩).message =
      terseMessage ⟨"boom", 1062, "23000", ErrorCode.integrityError⟩ "select 1" :=
  ⟨handleError_terse_amended.1 true "select 1" [("a", "x")] [("b", "y"), ("c", "z")]
      ⟨"boom", 1062, "23000", ErrorCode.integrityError⟩ (by decide) (by decide),
   (handleError_terse_amended.2.1 "select 1" [("a", "x")]
      ⟨"boom", 1062, "23000", ErrorCode.integrityError⟩ (by decide) (by decide)
      (by decide)).1⟩

/-- Outcomes of the collaborators `ExecuteBatch` drives: the admission check
(`startRequest`), `Begin` (issuing a transaction id), `Execute` for each
query (queries and results abstracted as naturals), and `Commit`. -/
structure BatchEnv where
  admitErr : Option TabletError
  beginTx : Except TabletError Nat
  exec : Nat → Nat → Except TabletError Nat
  commit : Nat → Except TabletError Unit

/-- The query loop of `ExecuteBatch`: run each query in order through
`Execute`, stopping at the first error. -/
def execBatchLoop (env : BatchEnv) (transactionID : Nat) :
    List Nat → Except TabletError (List Nat)
  | [] => Except.ok []
  | q :: rest =>
    match env.exec q transactionID with
    | Except.error e => Except.error e
    | Except.ok r =>
      match execBatchLoop env transactionID rest with
      | Except.error e => Except.error e
      | Except.ok rs => Except.ok (r :: rs)

/-- `TabletServer.ExecuteBatch`: input validation, admission, the optional
implicit transaction with its deferred rollback (the second component
reports whether the deferred `Rollback` ran, i.e. whether the implicit
transaction was still open — `transactionID != 0` — when the function
returned), and error wrapping through `handleError` with nil bind
variables. -/
def ExecuteBatch (terseErrors : Bool) (env : BatchEnv) (queries : List Nat)
    (asTransaction : Bool) (transactionID : Nat) :
    Except TabletError (List Nat) × Bool :=
  if queries.length = 0 then
    (Except.error (NewTabletError .badInput "Empty query list"), false)
  else if asTransaction = true ∧ transactionID ≠ 0 then
    (Except.error (NewTabletError .badInput
      "cannot start a new transaction in the scope of an existing one"), false)
  else
    match env.admitErr with
    | some e => (Except.error e, false)
    | none =>
      if asTransaction then
        match env.beginTx with
        | Except.error e => (Except.error (handleError terseErrors "batch" [] e), false)
        | Except.ok txid =>
          match execBatchLoop env txid queries with
          | Except.error e =>
            (Except.error (handleError terseErrors "batch" [] e), txid != 0)
          | Except.ok results =>
            match env.commit txid with
            | Except.error e => (Except.error (handleError terseErrors "batch" [] e), false)
            | Except.ok _ => (Except.ok results, false)
      else
        match execBatchLoop env transactionID queries with
        | Except.error e => (Except.error (handleError terseErrors "batch" [] e), false)
        | Except.ok results => (Except.ok results, false)

/-- The error kind carried by a failed `Except`, if any. -/
def exceptErrorCode {α : Type} : Except TabletError α → Option ErrorCode
  | Except.error e => some e.errorCode
  | Except.ok _ => none

/-- C6: `ExecuteBatch` returns BAD_INPUT on an empty query list and BAD_INPUT
when asTransaction is true with a non-zero transaction id; and when
asTransaction is true and a query of the batch fails, the implicit
transaction is rolled back (the deferred rollback runs) and the error is
returned. -/
theorem executeBatch_validation_and_rollback (terseErrors : Bool) (env : BatchEnv)
    (queries : List Nat) (asTransaction : Bool) (transactionID : Nat) :
    (queries = [] →
      ExecuteBatch terseErrors env queries asTransaction transactionID =
        (Except.error (NewTabletError .badInput "Empty query list"), false)) ∧
    (asTransaction = true → transactionID ≠ 0 →
      exceptErrorCode (ExecuteBatch terseErrors env queries asTransaction transactionID).1 =
          some ErrorCode.badInput ∧
        (ExecuteBatch terseErrors env queries asTransaction transactionID).2 = false) ∧
    (∀ txid e, queries ≠ [] → env.admitErr = none → env.beginTx = Except.ok txid →
      txid ≠ 0 → execBatchLoop env txid queries = Except.error e →
      ExecuteBatch terseErrors env queries true 0 = (Except.error e, true)) := by
  refine ⟨?_, ?_, ?_⟩
  · intro h
    subst h
    simp [ExecuteBatch]
  · intro ha htx
    cases queries with
    | nil => simp [ExecuteBatch, exceptErrorCode, NewTabletError]
    | cons q rest =>
      have hlen : (q :: rest).length ≠ 0 := by simp
      simp [ExecuteBatch, if_neg hlen, ha, htx, exceptErrorCode, NewTabletError]
  · intro txid e hq hadm hbegin htxid hloop
    have hlen : queries.length ≠ 0 := by simpa [List.length_eq_zero] using hq
    simp [ExecuteBatch, if_neg hlen, hadm, hbegin, hloop,
      handleError_nil_bindVariables, htxid, hq, bne_iff_ne]

/-- C6 witness: the theorem applied to a concrete one-query batch whose
query fails; the implicit transaction (id 7) is rolled back and the error
surfaces. -/
theorem executeBatch_validation_and_rollback_witness :
    ExecuteBatch false
        ⟨none, Except.ok 7, fun _ _ => Except.error (NewTabletError .unknownError "boom"),
          fun _ => Except.ok ()⟩
        [1] true 0 =
      (Except.error (NewTabletError .unknownError "boom"), true) :=
  (executeBatch_validation_and_rollback false
      ⟨none, Except.ok 7, fun _ _ => Except.error (NewTabletError .unknownError "boom"),
        fun _ => Except.ok ()⟩
      [1] true 0).2.2 7 (NewTabletError .unknownError "boom")
      (by decide) rfl rfl (by decide) rfl

/-- `querypb.SplitQueryRequest_EQUAL_SPLITS` (proto enum value 0; the Go
enum is an open int32). -/
def SplitQueryRequest_EQUAL_SPLITS : Int := 0

/-- `querypb.SplitQueryRequest_FULL_SCAN` (proto enum value 1). -/
def SplitQueryRequest_FULL_SCAN : Int := 1

/-- `validateSplitQueryParameters`. `sqlStr` stands for the Go
`QueryAsString(query.Sql, query.BindVariables)` rendering used in the
messages; enum and integer values are rendered with `toString`. -/
def validateSplitQueryParameters (target : Target) (sqlStr : String)
    (splitCount numRowsPerQueryPart algorithm : Int) : Option TabletError :=
  if target.tabletType ≠ TabletType.rdonly then
    some (NewTabletError .badInput
      ("SplitQuery must be called with a RDONLY tablet. TableType passed is: " ++
        tabletTypeName target.tabletType))
  else if numRowsPerQueryPart < 0 then
    some (NewTabletError .badInput
      ("splitQuery: numRowsPerQueryPart must be non-negative. Got: " ++
        toString numRowsPerQueryPart ++ ". SQL: " ++ sqlStr))
  else if splitCount < 0 then
    some (NewTabletError .badInput
      ("splitQuery: splitCount must be non-negative. Got: " ++
        toString splitCount ++ ". SQL: " ++ sqlStr))
  else if (splitCount = 0 ∧ numRowsPerQueryPart = 0) ∨
      (splitCount ≠ 0 ∧ numRowsPerQueryPart ≠ 0) then
    some (NewTabletError .badInput
      ("splitQuery: exactly one of \x7bnumRowsPerQueryPart, splitCount\x7d must be" ++
        " non zero. Got: numRowsPerQueryPart=" ++ toString numRowsPerQueryPart ++
        ", splitCount=" ++ toString splitCount ++ ". SQL: " ++ sqlStr))
  else if algorithm ≠ SplitQueryRequest_EQUAL_SPLITS ∧
      algorithm ≠ SplitQueryRequest_FULL_SCAN then
    some (NewTabletError .badInput
      ("splitquery: unsupported algorithm: " ++ toString algorithm ++
        ". SQL: " ++ sqlStr))
  else
    none

/-- Outcome of the split computation proper (`createSplitParams`, the SQL
executer and the splitter), which runs against external collaborators;
sub-queries are abstracted as naturals. -/
structure SplitEnv where
  compute : Except TabletError (List Nat)

/-- `TabletServer.SplitQuery`: admission through `execRequest` (isTx = false,
allowOnShutdown = false), parameter validation, then the split computation.
The second component records whether the computation after validation was
reached. Closure errors are wrapped by `execRequest` through `handleError`. -/
def SplitQuery (terseErrors : Bool) (tsv : TabletServer) (ctxIsLocal : Bool)
    (target : Target) (sqlStr : String) (bindVariables : List (String × String))
    (splitCount numRowsPerQueryPart algorithm : Int) (env : SplitEnv) :
    Except TabletError (List Nat) × Bool :=
  match (startRequest tsv ctxIsLocal (some target) false false).1 with
  | some e => (Except.error e, false)
  | none =>
    match validateSplitQueryParameters target sqlStr splitCount numRowsPerQueryPart
        algorithm with
    | some e => (Except.error (handleError terseErrors sqlStr bindVariables e), false)
    | none =>
      match env.compute with
      | Except.error e => (Except.error (handleError terseErrors sqlStr bindVariables e), true)
      | Except.ok splits => (Except.ok splits, true)

lemma validateSplitQueryParameters_cases (target : Target) (sqlStr : String)
    (splitCount numRowsPerQueryPart algorithm : Int) :
    validateSplitQueryParameters target sqlStr splitCount numRowsPerQueryPart algorithm =
        none ∨
      ∃ e, validateSplitQueryParameters target sqlStr splitCount numRowsPerQueryPart
          algorithm = some e ∧ e.errorCode = ErrorCode.badInput := by
  unfold validateSplitQueryParameters
  split_ifs <;>
    first
      | exact Or.inl rfl
      | exact Or.inr ⟨_, rfl, rfl⟩

lemma validateSplitQueryParameters_none_iff (target : Target) (sqlStr : String)
    (splitCount numRowsPerQueryPart algorithm : Int) :
    validateSplitQueryParameters target sqlStr splitCount numRowsPerQueryPart algorithm =
        none ↔
      (target.tabletType = TabletType.rdonly ∧
        0 ≤ numRowsPerQueryPart ∧ 0 ≤ splitCount ∧
        ¬((splitCount = 0 ∧ numRowsPerQueryPart = 0) ∨
          (splitCount ≠ 0 ∧ numRowsPerQueryPart ≠ 0)) ∧
        (algorithm = SplitQueryRequest_EQUAL_SPLITS ∨
          algorithm = SplitQueryRequest_FULL_SCAN)) := by
  unfold validateSplitQueryParameters
  split_ifs with h1 h2 h3 h4 h5 <;> simp_all
  omega

/-- C7: `SplitQuery` fails with BAD_INPUT whenever the target role is not
RDONLY, whenever split-count and rows-per-split are both zero or both
non-zero, and whenever the algorithm is neither EQUAL_SPLITS nor FULL_SCAN;
the split computation is reached only when every validation passes. -/
theorem splitQuery_validation (terseErrors : Bool) (tsv : TabletServer) (ctxIsLocal : Bool)
    (target : Target) (sqlStr : String) (bindVariables : List (String × String))
    (splitCount numRowsPerQueryPart algorithm : Int) (env : SplitEnv)
    (hadm : (startRequest tsv ctxIsLocal (some target) false false).1 = none) :
    (target.tabletType ≠ TabletType.rdonly →
      exceptErrorCode (SplitQuery terseErrors tsv ctxIsLocal target sqlStr bindVariables
          splitCount numRowsPerQueryPart algorithm env).1 = some ErrorCode.badInput ∧
      (SplitQuery terseErrors tsv ctxIsLocal target sqlStr bindVariables
          splitCount numRowsPerQueryPart algorithm env).2 = false) ∧
    (((splitCount = 0 ∧ numRowsPerQueryPart = 0) ∨
        (splitCount ≠ 0 ∧ numRowsPerQueryPart ≠ 0)) →
      exceptErrorCode (SplitQuery terseErrors tsv ctxIsLocal target sqlStr bindVariables
          splitCount numRowsPerQueryPart algorithm env).1 = some ErrorCode.badInput ∧
      (SplitQuery terseErrors tsv ctxIsLocal target sqlStr bindVariables
          splitCount numRowsPerQueryPart algorithm env).2 = false) ∧
    ((algorithm ≠ SplitQueryRequest_EQUAL_SPLITS ∧
        algorithm ≠ SplitQueryRequest_FULL_SCAN) →
      exceptErrorCode (SplitQuery terseErrors tsv ctxIsLocal target sqlStr bindVariables
          splitCount numRowsPerQueryPart algorithm env).1 = some ErrorCode.badInput ∧
      (SplitQuery terseErrors tsv ctxIsLocal target sqlStr bindVariables
          splitCount numRowsPerQueryPart algorithm env).2 = false) ∧
    ((SplitQuery terseErrors tsv ctxIsLocal target sqlStr bindVariables
        splitCount numRowsPerQueryPart algorithm env).2 = true →
      validateSplitQueryParameters target sqlStr splitCount numRowsPerQueryPart
          algorithm = none ∧
        target.tabletType = TabletType.rdonly ∧
        ¬((splitCount = 0 ∧ numRowsPerQueryPart = 0) ∨
          (splitCount ≠ 0 ∧ numRowsPerQueryPart ≠ 0)) ∧
        (algorithm = SplitQueryRequest_EQUAL_SPLITS ∨
          algorithm = SplitQueryRequest_FULL_SCAN)) := by
  have hv := validateSplitQueryParameters_cases target sqlStr splitCount
    numRowsPerQueryPart algorithm
  refine ⟨?_, ?_, ?_, ?_⟩
  · intro hrole
    rcases hv with hnone | ⟨e, hsome, hcode⟩
    · rw [validateSplitQueryParameters_none_iff] at hnone
      exact absurd hnone.1 hrole
    · exact ⟨by simp [SplitQuery, hadm, hsome, exceptErrorCode,
          handleError_errorCode, hcode],
        by simp [SplitQuery, hadm, hsome]⟩
  · intro hboth
    rcases hv with hnone | ⟨e, hsome, hcode⟩
    · rw [validateSplitQueryParameters_none_iff] at hnone
      exact absurd hboth hnone.2.2.2.1
    · exact ⟨by simp [SplitQuery, hadm, hsome, exceptErrorCode,
          handleError_errorCode, hcode],
        by simp [SplitQuery, hadm, hsome]⟩
  · intro halg
    rcases hv with hnone | ⟨e, hsome, hcode⟩
    · rw [validateSplitQueryParameters_none_iff] at hnone
      rcases hnone.2.2.2.2 with h | h
      · exact absurd h halg.1
      · exact absurd h halg.2
    · exact ⟨by simp [SplitQuery, hadm, hsome, exceptErrorCode,
          handleError_errorCode, hcode],
        by simp [SplitQuery, hadm, hsome]⟩
  · intro hreach
    rcases hv with hnone | ⟨e, hsome, hcode⟩
    · have hc := (validateSplitQueryParameters_none_iff target sqlStr splitCount
        numRowsPerQueryPart algorithm).1 hnone
      exact ⟨hnone, hc.1, hc.2.2.2.1, hc.2.2.2.2⟩
    · rw [show (SplitQuery terseErrors tsv ctxIsLocal target sqlStr bindVariables
          splitCount numRowsPerQueryPart algorithm env).2 = false by
            simp [SplitQuery, hadm, hsome]] at hreach
      exact absurd hreach (by simp)

/-- C7 witness: the theorem applied to a concrete RDONLY server asked for an
unsupported algorithm (5). -/
theorem splitQuery_validation_witness :
    exceptErrorCode (SplitQuery false
        ⟨ServingState.serving, 0, ⟨"ks", "0", TabletType.rdonly⟩, [], 0, 0⟩
        false ⟨"ks", "0", TabletType.rdonly⟩ "select 1" [] 3 0 5 ⟨Except.ok []⟩).1 =
      some ErrorCode.badInput ∧
    (SplitQuery false
        ⟨ServingState.serving, 0, ⟨"ks", "0", TabletType.rdonly⟩, [], 0, 0⟩
        false ⟨"ks", "0", TabletType.rdonly⟩ "select 1" [] 3 0 5 ⟨Except.ok []⟩).2 = false :=
  (splitQuery_validation false
      ⟨ServingState.serving, 0, ⟨"ks", "0", TabletType.rdonly⟩, [], 0, 0⟩
      false ⟨"ks", "0", TabletType.rdonly⟩ "select 1" [] 3 0 5 ⟨Except.ok []⟩
      (by decide)).2.2.1 (by decide)

/-- `querypb.StreamHealthResponse`: the health snapshot. The realtime stats
pointer is abstracted as a natural. -/
structure StreamHealthResponse where
  target : Target
  serving : Bool
  tabletExternallyReparentedTimestamp : Int
  realtimeStats : Nat
  deriving DecidableEq, Repr

/-- A subscriber channel: a bounded buffer with its capacity, fixed when the
Go code does `make(chan *querypb.StreamHealthResponse, 10)`. -/
structure HealthChannel where
  cap : Nat
  buf : List StreamHealthResponse
  deriving DecidableEq, Repr

/-- The stream-health fields of `TabletServer`: the subscription counter and
the id-to-channel map (as an association list), plus the last-known
snapshot. -/
structure StreamHealthState where
  streamHealthIndex : Nat
  streamHealthMap : List (Nat × HealthChannel)
  lastStreamHealthResponse : Option StreamHealthResponse
  deriving DecidableEq, Repr

/-- `streamHealthRegister`: allocate the next id and a channel of capacity
10. Returns the id and the updated state. -/
def streamHealthRegister (s : StreamHealthState) : Nat × StreamHealthState :=
  (s.streamHealthIndex,
    { s with
      streamHealthIndex := s.streamHealthIndex + 1,
      streamHealthMap := s.streamHealthMap ++ [(s.streamHealthIndex, ⟨10, []⟩)] })

/-- `streamHealthUnregister`: drop the channel with the given id. -/
def streamHealthUnregister (s : StreamHealthState) (id : Nat) : StreamHealthState :=
  { s with streamHealthMap := s.streamHealthMap.filter (fun p => p.1 != id) }

/-- The non-blocking send of `BroadcastHealth` (`select { case c <- shr:
default: }`): deliver if the buffer has room, otherwise drop the message
and leave the channel unchanged. -/
def trySend (c : HealthChannel) (shr : StreamHealthResponse) : HealthChannel :=
  if c.buf.length < c.cap then { c with buf := c.buf ++ [shr] } else c

/-- `TabletServer.BroadcastHealth`: build one snapshot from the current
target and serving flag, attempt a non-blocking send to every subscriber,
and store the snapshot as last known. -/
def BroadcastHealth (tsv : TabletServer) (s : StreamHealthState)
    (terTimestamp : Int) (stats : Nat) : StreamHealthState :=
  let shr : StreamHealthResponse :=
    { target := tsv.target, serving := IsServing tsv,
      tabletExternallyReparentedTimestamp := terTimestamp, realtimeStats := stats }
  { s with
    streamHealthMap := s.streamHealthMap.map (fun p => (p.1, trySend p.2 shr)),
    lastStreamHealthResponse := some shr }

/-- C8: on every broadcast, each subscriber whose buffer has room receives
the snapshot built from the current target and serving flag, each
subscriber with a full buffer is skipped with its channel unchanged (the
send is the total function `trySend`, so the broadcaster never blocks), the
stored last-known snapshot equals the snapshot just built, and the capacity
every subscriber got at registration is 10. -/
theorem broadcastHealth_fanout (tsv : TabletServer) (s : StreamHealthState)
    (terTimestamp : Int) (stats : Nat) :
    (∀ p ∈ s.streamHealthMap,
      (p.2.buf.length < p.2.cap →
        (p.1, { p.2 with buf := p.2.buf ++
            [⟨tsv.target, IsServing tsv, terTimestamp, stats⟩] }) ∈
          (BroadcastHealth tsv s terTimestamp stats).streamHealthMap) ∧
      (¬ p.2.buf.length < p.2.cap →
        p ∈ (BroadcastHealth tsv s terTimestamp stats).streamHealthMap)) ∧
    (BroadcastHealth tsv s terTimestamp stats).lastStreamHealthResponse =
      some ⟨tsv.target, IsServing tsv, terTimestamp, stats⟩ ∧
    (streamHealthRegister s).2.streamHealthMap =
      s.streamHealthMap ++ [(s.streamHealthIndex, ⟨10, []⟩)] := by
  refine ⟨?_, rfl, rfl⟩
  intro p hp
  constructor
  · intro hroom
    refine List.mem_map.2 ⟨p, hp, ?_⟩
    simp [trySend, if_pos hroom]
  · intro hfull
    refine List.mem_map.2 ⟨p, hp, ?_⟩
    simp [trySend, if_neg hfull]

/-- C8 witness: the theorem applied to a concrete state with one empty
channel (which receives the snapshot) and one full channel (which is left
unchanged). -/
theorem broadcastHealth_fanout_witness :
    ((0 : Nat), (⟨1, [⟨⟨"ks", "0", TabletType.master⟩, true, 4, 9⟩]⟩ : HealthChannel)) ∈
      (BroadcastHealth ⟨ServingState.serving, 0, ⟨"ks", "0", TabletType.master⟩, [], 0, 0⟩
        ⟨2, [(0, ⟨1, []⟩), (1, ⟨1, [⟨⟨"ks", "0", TabletType.master⟩, false, 3, 8⟩]⟩)],
          none⟩ 4 9).streamHealthMap ∧
    ((1 : Nat), (⟨1, [⟨⟨"ks", "0", TabletType.master⟩, false, 3, 8⟩]⟩ : HealthChannel)) ∈
      (BroadcastHealth ⟨ServingState.serving, 0, ⟨"ks", "0", TabletType.master⟩, [], 0, 0⟩
        ⟨2, [(0, ⟨1, []⟩), (1, ⟨1, [⟨⟨"ks", "0", TabletType.master⟩, false, 3, 8⟩]⟩)],
          none⟩ 4 9).streamHealthMap :=
  ⟨((broadcastHealth_fanout
      ⟨ServingState.serving, 0, ⟨"ks", "0", TabletType.master⟩, [], 0, 0⟩
      ⟨2, [(0, ⟨1, []⟩), (1, ⟨1, [⟨⟨"ks", "0", TabletType.master⟩, false, 3, 8⟩]⟩)], none⟩
      4 9).1 (0, ⟨1, []⟩) (by simp)).1 (by decide),
   ((broadcastHealth_fanout
      ⟨ServingState.serving, 0, ⟨"ks", "0", TabletType.master⟩, [], 0, 0⟩
      ⟨2, [(0, ⟨1, []⟩), (1, ⟨1, [⟨⟨"ks", "0", TabletType.master⟩, false, 3, 8⟩]⟩)], none⟩
      4 9).1 (1, ⟨1, [⟨⟨"ks", "0", TabletType.master⟩, false, 3, 8⟩]⟩) (by simp)).2
      (by decide)⟩

end Vitess
